import Mathlib

/-!
Shallow embedding of the relay-side IBC handlers of this repository:
the `update_client` validate/execute handlers (ics02), the
`MsgChannelCloseConfirm` wire conversions (ics04), the transfer
application's timeout processing, and the `TestHost` trait helpers of
the testkit.  Pure functions are translated directly; the mutable
`ExecutionContext` becomes explicit state passing; fallible code
returns `Except`.
-/

namespace IbcSpec

/-- Height is a pair (revision number, revision height), ordered
lexicographically; revision heights of real heights are at least 1. -/
structure Height where
  revision_number : Nat
  revision_height : Nat
deriving DecidableEq, Repr

/-- Lexicographic strict order on heights, as a Boolean test. -/
def heightLtB (a b : Height) : Bool :=
  Nat.blt a.revision_number b.revision_number
    || (a.revision_number == b.revision_number
        && Nat.blt a.revision_height b.revision_height)

/-- Increment acts on the revision height only. -/
def Height.increment (h : Height) : Height :=
  { h with revision_height := h.revision_height + 1 }

/-- Errors surfaced by the client handlers (`ContextError` in the source). -/
inductive ContextError where
  | client_not_found (client_id : String)
  | client_frozen
  | invalid_client_message
  | missing_trusted_height
deriving DecidableEq, Repr

/-- Modelled from the spec: a header carries its height, its declared
trusted height, a timestamp and a commitment root (the concrete header
type of a client algorithm is outside the provided sources). -/
structure Header where
  height : Height
  trusted_height : Height
  timestamp : Nat
  root : Nat
deriving DecidableEq, Repr

/-- Modelled from the spec: the `Any`-encoded client message either decodes
to a header, to misbehaviour evidence (two conflicting headers), or fails
to decode. -/
inductive ClientMessage where
  | header (h : Header)
  | misbehaviour (h1 h2 : Header)
  | malformed
deriving DecidableEq, Repr

/-- The two update kinds carried by `MsgUpdateClient`. -/
inductive UpdateClientKind where
  | UpdateHeader
  | Misbehaviour
deriving DecidableEq, Repr

/-- Modelled from the spec: the stored per-client record — client type tag,
optional frozen height (set means frozen), latest verified height. -/
structure ClientState where
  client_type : String
  frozen_height : Option Height
  latest_height : Height
deriving DecidableEq, Repr

/-- Modelled from the spec: a consensus state is a commitment root plus a
timestamp. -/
structure ConsensusState where
  root : Nat
  timestamp : Nat
deriving DecidableEq, Repr

/-- Event type tags (discriminants carried by the generic Message event). -/
inductive IbcEventType where
  | UpdateClient
  | ClientMisbehaviour
deriving DecidableEq, Repr

/-- Events emitted by the update-client handler. -/
inductive IbcEvent where
  | Message (t : IbcEventType)
  | UpdateClient (client_id : String) (client_type : String)
      (consensus_height : Height) (consensus_heights : List Height)
      (header : ClientMessage)
  | ClientMisbehaviour (client_id : String) (client_type : String)
deriving DecidableEq, Repr

/-- Discriminant of an event, as `IbcEvent::event_type` returns it. -/
def event_type (e : IbcEvent) : IbcEventType :=
  match e with
  | .Message t => t
  | .UpdateClient _ _ _ _ _ => .UpdateClient
  | .ClientMisbehaviour _ _ => .ClientMisbehaviour

/-- Association-list lookup for client states, keyed by client id. -/
def find_client (l : List (String × ClientState)) (id : String) :
    Option ClientState :=
  match l with
  | [] => none
  | (k, v) :: rest => if k = id then some v else find_client rest id

/-- Association-list lookup for consensus states, keyed by client id and
height. -/
def find_consensus (l : List ((String × Height) × ConsensusState))
    (id : String) (h : Height) : Option ConsensusState :=
  match l with
  | [] => none
  | (k, v) :: rest =>
      if k = (id, h) then some v else find_consensus rest id h

/-- Association-list update (insert or replace) for client states. -/
def set_client (l : List (String × ClientState)) (id : String)
    (cs : ClientState) : List (String × ClientState) :=
  match l with
  | [] => [(id, cs)]
  | (k, v) :: rest =>
      if k = id then (id, cs) :: rest else (k, v) :: set_client rest id cs

/-- Association-list update (insert or replace) for consensus states. -/
def set_consensus (l : List ((String × Height) × ConsensusState))
    (id : String) (h : Height) (cs : ConsensusState) :
    List ((String × Height) × ConsensusState) :=
  match l with
  | [] => [((id, h), cs)]
  | (k, v) :: rest =>
      if k = (id, h) then ((id, h), cs) :: rest
      else (k, v) :: set_consensus rest id h cs

/-- The host context: stored client states, stored consensus states, and the
list of emitted events (the mock context records events in order). -/
structure Ctx where
  client_states : List (String × ClientState)
  consensus_states : List ((String × Height) × ConsensusState)
  events : List IbcEvent
deriving DecidableEq, Repr

/-- Read a client state from the context (`ValidationContext::client_state`);
`none` models the `ClientNotFound` error of the missing trait impl. -/
def client_state_of (ctx : Ctx) (id : String) : Option ClientState :=
  find_client ctx.client_states id

/-- Read a consensus state from the context. -/
def consensus_state_of (ctx : Ctx) (id : String) (h : Height) :
    Option ConsensusState :=
  find_consensus ctx.consensus_states id h

/-- Store a client state in the context. -/
def store_client_state (ctx : Ctx) (id : String) (cs : ClientState) : Ctx :=
  { ctx with client_states := set_client ctx.client_states id cs }

/-- Store a consensus state in the context. -/
def store_consensus_state (ctx : Ctx) (id : String) (h : Height)
    (cs : ConsensusState) : Ctx :=
  { ctx with consensus_states := set_consensus ctx.consensus_states id h cs }

/-- Append an event to the context's event log
(`ExecutionContext::emit_ibc_event`). -/
def emit_ibc_event (ctx : Ctx) (e : IbcEvent) : Ctx :=
  { ctx with events := ctx.events ++ [e] }

/-- Modelled from the spec: `confirm_not_frozen` fails with `ClientFrozen`
exactly when the frozen height is set (the trait impl is outside the
provided sources). -/
def confirm_not_frozen (cs : ClientState) : Except ContextError Unit :=
  if cs.frozen_height.isSome then .error .client_frozen else .ok ()

/-- Modelled from the spec: `verify_client_message` checks the message
decodes and that a trusted consensus state exists at the declared trusted
height of each header (the client-specific verification is outside the
provided sources). -/
def verify_client_message (ctx : Ctx) (client_id : String)
    (_cs : ClientState) (msg : ClientMessage) (_kind : UpdateClientKind) :
    Except ContextError Unit :=
  match msg with
  | .malformed => .error .invalid_client_message
  | .header h =>
      match consensus_state_of ctx client_id h.trusted_height with
      | none => .error .missing_trusted_height
      | some _ => .ok ()
  | .misbehaviour h1 h2 =>
      match consensus_state_of ctx client_id h1.trusted_height,
            consensus_state_of ctx client_id h2.trusted_height with
      | some _, some _ => .ok ()
      | _, _ => .error .missing_trusted_height

/-- Modelled from the spec: two headers prove misbehaviour when they sit at
the same height with different roots or timestamps, or when their
timestamps are non-monotonic across increasing heights. -/
def misbehaviour_evidence (h1 h2 : Header) : Bool :=
  (h1.height == h2.height
      && (h1.root != h2.root || h1.timestamp != h2.timestamp))
    || (heightLtB h1.height h2.height && Nat.ble h2.timestamp h1.timestamp)
    || (heightLtB h2.height h1.height && Nat.ble h1.timestamp h2.timestamp)

/-- Modelled from the spec: `check_for_misbehaviour` inspects, independently
of the update kind, whether the evidence — or, for a header update, a
conflicting previously stored consensus state at the same height — proves
misbehaviour; it fails when the message does not decode. -/
def check_for_misbehaviour (ctx : Ctx) (client_id : String)
    (_cs : ClientState) (msg : ClientMessage) (_kind : UpdateClientKind) :
    Except ContextError Bool :=
  match msg with
  | .malformed => .error .invalid_client_message
  | .header h =>
      match consensus_state_of ctx client_id h.height with
      | none => .ok false
      | some stored =>
          .ok (stored.root != h.root || stored.timestamp != h.timestamp)
  | .misbehaviour h1 h2 => .ok (misbehaviour_evidence h1 h2)

/-- Modelled from the spec: `update_state` computes the new consensus state
from the header, stores it at the header's height, and advances the stored
latest height if the header's height is greater. -/
def update_state (ctx : Ctx) (client_id : String) (cs : ClientState)
    (msg : ClientMessage) (_kind : UpdateClientKind) :
    Except ContextError Unit × Ctx :=
  match msg with
  | .header h =>
      let ctx1 := store_consensus_state ctx client_id h.height
        { root := h.root, timestamp := h.timestamp }
      let new_latest :=
        if heightLtB cs.latest_height h.height then h.height
        else cs.latest_height
      let ctx2 := store_client_state ctx1 client_id
        { cs with latest_height := new_latest }
      (.ok (), ctx2)
  | _ => (.error .invalid_client_message, ctx)

/-- Modelled from the spec: `update_state_on_misbehaviour` transitions the
client to Frozen by setting its frozen height; no consensus state is
written. -/
def update_state_on_misbehaviour (ctx : Ctx) (client_id : String)
    (cs : ClientState) (_msg : ClientMessage) (_kind : UpdateClientKind) :
    Except ContextError Unit × Ctx :=
  (.ok (), store_client_state ctx client_id
    { cs with frozen_height := some cs.latest_height })

/-- The message dispatched to the update-client handler. -/
structure MsgUpdateClient where
  client_id : String
  client_message : ClientMessage
  update_kind : UpdateClientKind
  signer : String
deriving DecidableEq, Repr

/-- The `validate` phase of the update-client handler, translated from
`update_client.rs`: read the client state, confirm it is not frozen, then
verify the client message. -/
def validate (ctx : Ctx) (msg : MsgUpdateClient) :
    Except ContextError Unit :=
  match client_state_of ctx msg.client_id with
  | none => .error (.client_not_found msg.client_id)
  | some client_state =>
      match confirm_not_frozen client_state with
      | .error e => .error e
      | .ok _ =>
          verify_client_message ctx msg.client_id client_state
            msg.client_message msg.update_kind

/-- The `execute` phase of the update-client handler, translated from
`update_client.rs`: read the client state, check for misbehaviour; on
misbehaviour freeze the client and emit the Message and ClientMisbehaviour
events; otherwise update the state and emit the Message and UpdateClient
events, taking the event's consensus height from the client state value
read before the update (source line 68). -/
def execute (ctx : Ctx) (msg : MsgUpdateClient) :
    Except ContextError Unit × Ctx :=
  match client_state_of ctx msg.client_id with
  | none => (.error (.client_not_found msg.client_id), ctx)
  | some client_state =>
      match check_for_misbehaviour ctx msg.client_id client_state
          msg.client_message msg.update_kind with
      | .error e => (.error e, ctx)
      | .ok found_misbehaviour =>
          if found_misbehaviour then
            match update_state_on_misbehaviour ctx msg.client_id client_state
                msg.client_message msg.update_kind with
            | (.error e, ctx1) => (.error e, ctx1)
            | (.ok _, ctx1) =>
                let event := IbcEvent.ClientMisbehaviour msg.client_id
                  client_state.client_type
                let ctx2 := emit_ibc_event ctx1 (.Message (event_type event))
                let ctx3 := emit_ibc_event ctx2 event
                (.ok (), ctx3)
          else
            match update_state ctx msg.client_id client_state
                msg.client_message msg.update_kind with
            | (.error e, ctx1) => (.error e, ctx1)
            | (.ok _, ctx1) =>
                let consensus_height := client_state.latest_height
                let event := IbcEvent.UpdateClient msg.client_id
                  client_state.client_type consensus_height
                  [consensus_height] msg.client_message
                let ctx2 := emit_ibc_event ctx1 (.Message (event_type event))
                let ctx3 := emit_ibc_event ctx2 event
                (.ok (), ctx3)

/-- Characters admitted in ICS-24 identifiers. -/
def id_char_ok (c : Char) : Bool :=
  c.isAlphanum || c == '.' || c == '_' || c == '+' || c == '-'
    || c == '#' || c == '[' || c == ']' || c == '<' || c == '>'

/-- Modelled from the spec: ICS-24 identifier validation — length between
the given bounds and all characters from the admitted set (the
`validate_identifier` helper is outside the provided sources). -/
def validate_identifier (s : String) (minL maxL : Nat) : Bool :=
  Nat.ble minL s.length && Nat.ble s.length maxL && s.data.all id_char_ok

/-- Modelled from the spec: `PortId::from_str` — port identifiers are 2 to
128 admitted characters. -/
def port_id_parse (s : String) : Option String :=
  if validate_identifier s 2 128 then some s else none

/-- Modelled from the spec: `ChannelId::from_str` — channel identifiers are
8 to 64 admitted characters. -/
def channel_id_parse (s : String) : Option String :=
  if validate_identifier s 8 64 then some s else none

/-- Modelled from the spec: `CommitmentProofBytes::try_from` rejects an
empty byte vector. -/
def proof_try_from (bytes : List Nat) : Option (List Nat) :=
  if bytes.isEmpty then none else some bytes

/-- The raw (wire) height: a plain pair of integers, either component may
be zero. -/
structure RawHeight where
  revision_number : Nat
  revision_height : Nat
deriving DecidableEq, Repr

/-- Modelled from the spec: `Height::try_from(RawHeight)` fails when the
revision height is 0 — height 0 is the sentinel "no height", a real height
has revision height at least 1. -/
def raw_height_try_into (rh : RawHeight) : Option Height :=
  if rh.revision_height == 0 then none
  else some { revision_number := rh.revision_number,
              revision_height := rh.revision_height }

/-- The raw (wire) `MsgChannelCloseConfirm` struct. -/
structure RawMsgChannelCloseConfirm where
  port_id : String
  channel_id : String
  proof_init : List Nat
  proof_height : Option RawHeight
  signer : String
deriving DecidableEq, Repr

/-- The domain `MsgChannelCloseConfirm` struct. -/
structure MsgChannelCloseConfirm where
  port_id_on_b : String
  chan_id_on_b : String
  proof_chan_end_on_a : List Nat
  proof_height_on_a : Height
  signer : String
deriving DecidableEq, Repr

/-- Errors of the channel message conversions. -/
inductive ChannelError where
  | Identifier
  | InvalidProof
  | MissingHeight
deriving DecidableEq, Repr

/-- Conversion of the raw wire struct into the domain struct, translated
from `chan_close_confirm.rs`: the field initializers run in source order
(port, channel, proof, height), each failing with its own error. -/
def msg_chan_close_confirm_try_from (raw : RawMsgChannelCloseConfirm) :
    Except ChannelError MsgChannelCloseConfirm :=
  match port_id_parse raw.port_id with
  | none => .error .Identifier
  | some p =>
      match channel_id_parse raw.channel_id with
      | none => .error .Identifier
      | some c =>
          match proof_try_from raw.proof_init with
          | none => .error .InvalidProof
          | some pr =>
              match raw.proof_height.bind raw_height_try_into with
              | none => .error .MissingHeight
              | some h =>
                  .ok { port_id_on_b := p, chan_id_on_b := c,
                        proof_chan_end_on_a := pr, proof_height_on_a := h,
                        signer := raw.signer }

/-- Conversion of the domain struct back into the raw wire struct,
translated from `chan_close_confirm.rs`. -/
def msg_chan_close_confirm_into_raw (m : MsgChannelCloseConfirm) :
    RawMsgChannelCloseConfirm :=
  { port_id := m.port_id_on_b, channel_id := m.chan_id_on_b,
    proof_init := m.proof_chan_end_on_a,
    proof_height := some { revision_number := m.proof_height_on_a.revision_number,
                           revision_height := m.proof_height_on_a.revision_height },
    signer := m.signer }

/-- The validity invariants the domain struct's field types enforce by
construction in the source (valid identifiers, non-empty proof, real
height). -/
def msg_chan_close_confirm_wf (m : MsgChannelCloseConfirm) : Prop :=
  validate_identifier m.port_id_on_b 2 128 = true
    ∧ validate_identifier m.chan_id_on_b 8 64 = true
    ∧ m.proof_chan_end_on_a ≠ []
    ∧ 1 ≤ m.proof_height_on_a.revision_height

instance (m : MsgChannelCloseConfirm) :
    Decidable (msg_chan_close_confirm_wf m) := by
  unfold msg_chan_close_confirm_wf
  infer_instance

/-- A packet of the channel layer (the fields the transfer application
reads). -/
structure Packet where
  sequence : Nat
  port_on_a : String
  chan_on_a : String
  port_on_b : String
  chan_on_b : String
deriving DecidableEq, Repr

/-- The ICS-20 packet data. -/
structure PacketData where
  denom : String
  amount : Nat
  sender : String
  receiver : String
deriving DecidableEq, Repr

/-- Errors of the transfer application. -/
inductive Ics20Error where
  | insufficient_funds
deriving DecidableEq, Repr

/-- The transfer application context: balances keyed by (account, denom). -/
structure TransferCtx where
  balances : List ((String × String) × Nat)
deriving DecidableEq, Repr

/-- Balance lookup, zero when absent. -/
def balance_of (l : List ((String × String) × Nat)) (acct denom : String) :
    Nat :=
  match l with
  | [] => 0
  | (k, v) :: rest =>
      if k = (acct, denom) then v else balance_of rest acct denom

/-- Add to a balance entry, inserting it if absent. -/
def credit_balance (l : List ((String × String) × Nat))
    (acct denom : String) (amt : Nat) : List ((String × String) × Nat) :=
  match l with
  | [] => [((acct, denom), amt)]
  | (k, v) :: rest =>
      if k = (acct, denom) then (k, v + amt) :: rest
      else (k, v) :: credit_balance rest acct denom amt

/-- Subtract from a balance entry (callers check sufficiency first). -/
def debit_balance (l : List ((String × String) × Nat))
    (acct denom : String) (amt : Nat) : List ((String × String) × Nat) :=
  match l with
  | [] => []
  | (k, v) :: rest =>
      if k = (acct, denom) then (k, v - amt) :: rest
      else (k, v) :: debit_balance rest acct denom amt

/-- The escrow account of a (port, channel) pair. -/
def escrow_account (port chan : String) : String :=
  "escrow/" ++ port ++ "/" ++ chan

/-- Modelled from the spec: `refund_packet_token` reverses the side effect
of `SendPacket` — a denom carrying the source (port, channel) trace prefix
was burned on send and is minted back to the sender; otherwise the amount
was escrowed and is paid back out of the channel's escrow account (the
function body is outside the provided sources). -/
def refund_packet_token (ctx : TransferCtx) (packet : Packet)
    (data : PacketData) : Except Ics20Error Unit × TransferCtx :=
  let trace := packet.port_on_a ++ "/" ++ packet.chan_on_a ++ "/"
  if trace.isPrefixOf data.denom then
    (.ok (), { balances :=
      credit_balance ctx.balances data.sender data.denom data.amount })
  else
    let escrow := escrow_account packet.port_on_a packet.chan_on_a
    if balance_of ctx.balances escrow data.denom < data.amount then
      (.error .insufficient_funds, ctx)
    else
      (.ok (), { balances :=
        credit_balance (debit_balance ctx.balances escrow data.denom
            data.amount) data.sender data.denom data.amount })

/-- The transfer application's timeout processing, translated from
`on_timeout_packet.rs`: it delegates to `refund_packet_token`. -/
def process_timeout_packet (ctx : TransferCtx) (packet : Packet)
    (data : PacketData) : Except Ics20Error Unit × TransferCtx :=
  refund_packet_token ctx packet data

/-- A block of the test host: a height and a timestamp. -/
structure TBlock where
  height : Height
  timestamp : Nat
deriving DecidableEq, Repr

/-- The test host of the testkit: chain revision, block production time,
genesis timestamp, and the history of produced blocks (front = oldest,
back = most recent, as in the `VecDeque`). -/
structure THost where
  chain_revision : Nat
  block_time : Nat
  genesis_timestamp : Nat
  history : List TBlock
deriving DecidableEq, Repr

/-- Translated from `TestHost::is_empty`. -/
def THost.is_empty (h : THost) : Bool :=
  h.history.isEmpty

/-- Translated from `TestHost::latest_block`; `none` models the `expect`
panic on an empty history. -/
def THost.latest_block (h : THost) : Option TBlock :=
  h.history.getLast?

/-- Translated from `TestHost::latest_height`; `none` models the panic
propagated from `latest_block`. -/
def THost.latest_height (h : THost) : Option Height :=
  (h.latest_block).map TBlock.height

/-- Translated from `TestHost::get_block`: the history is indexed from 1 by
revision height (the revision number of the queried height is ignored);
`none` at revision height 0 models the unsigned underflow panic. -/
def THost.get_block (h : THost) (target : Height) : Option TBlock :=
  if target.revision_height == 0 then none
  else h.history.get? (target.revision_height - 1)

/-- Translated from `TestHost::push_block`: append at the back. -/
def THost.push_block (h : THost) (b : TBlock) : THost :=
  { h with history := h.history ++ [b] }

/-- Modelled from the spec: `generate_block` of the concrete hosts builds a
block at the given height within the host chain's revision, with the given
timestamp (the `MockHost`/`TendermintHost` impls are outside the provided
sources). -/
def THost.generate_block (h : THost) (_root : List Nat) (ht : Nat)
    (ts : Nat) : TBlock :=
  { height := { revision_number := h.chain_revision, revision_height := ht },
    timestamp := ts }

/-- Translated from `TestHost::advance_block`: an empty history gets a
block at height 1 with the genesis timestamp, otherwise the latest block's
height is incremented and its timestamp advanced by the block time.  The
`is_empty` test of the source is the `getLast? = none` case here. -/
def THost.advance_block (h : THost) (root : List Nat) : THost :=
  match h.history.getLast? with
  | none => h.push_block (h.generate_block root 1 h.genesis_timestamp)
  | some lb =>
      h.push_block (h.generate_block root
        lb.height.increment.revision_height (lb.timestamp + h.block_time))

/-- The loop of `TestHost::validate`, checking heights `rh` to `latest_rh`
within revision `rn`.  In the source the loop variable starts at
`Height::min(latest.revision_number)` and `increment` never changes the
revision number, so the whole loop runs inside the latest height's
revision; the revision number and height are therefore passed separately
here.  `none` models the `expect` panic on a missing block. -/
def THost.validate_go (h : THost) (rn latest_rh rh : Nat) :
    Option (Except String Unit) :=
  if hle : rh ≤ latest_rh then
    match h.get_block { revision_number := rn, revision_height := rh } with
    | none => none
    | some b =>
        if b.height = { revision_number := rn, revision_height := rh } then
          h.validate_go rn latest_rh (rh + 1)
        else some (.error "block height does not match")
  else some (.ok ())
termination_by latest_rh + 1 - rh
decreasing_by omega

/-- Translated from `TestHost::validate`: check that the blocks of the
history sit at sequential heights from 1 up to the latest height; `none`
models the panics (empty history, missing block). -/
def THost.validate (h : THost) : Option (Except String Unit) :=
  match h.latest_block with
  | none => none
  | some lb =>
      h.validate_go lb.height.revision_number lb.height.revision_height 1

/-- Helper for the structural history invariant: the blocks of `l` sit at
heights `(rev, start), (rev, start + 1), ...` in order. -/
def blocks_consistent (rev : Nat) (l : List TBlock) (start : Nat) : Bool :=
  match l with
  | [] => true
  | b :: rest =>
      (b.height == { revision_number := rev, revision_height := start })
        && blocks_consistent rev rest (start + 1)

/-- The invariant `TestHost::validate` checks, stated structurally: block
`i` of the history sits at height `(chain revision, i + 1)`, i.e. heights
are consecutive from revision height 1 within the chain's revision. -/
def THost.consistent (h : THost) : Bool :=
  blocks_consistent h.chain_revision h.history 1

/-- Inversion of a successful port id parse. -/
theorem port_id_parse_some (s t : String) (h : port_id_parse s = some t) :
    t = s ∧ validate_identifier s 2 128 = true := by
  by_cases hv : validate_identifier s 2 128 = true
  · refine ⟨?_, hv⟩
    simp [port_id_parse, hv] at h
    exact h.symm
  · simp [port_id_parse, hv] at h

/-- Inversion of a successful channel id parse. -/
theorem channel_id_parse_some (s t : String)
    (h : channel_id_parse s = some t) :
    t = s ∧ validate_identifier s 8 64 = true := by
  by_cases hv : validate_identifier s 8 64 = true
  · refine ⟨?_, hv⟩
    simp [channel_id_parse, hv] at h
    exact h.symm
  · simp [channel_id_parse, hv] at h

/-- Inversion of a successful proof conversion. -/
theorem proof_try_from_some (b t : List Nat) (h : proof_try_from b = some t) :
    t = b ∧ b.isEmpty = false := by
  by_cases he : b.isEmpty = true
  · simp [proof_try_from, he] at h
  · have he' : b.isEmpty = false := by
      cases hb : b.isEmpty
      · rfl
      · exact absurd hb he
    refine ⟨?_, he'⟩
    simp [proof_try_from, he'] at h
    exact h.symm

/-- Inversion of a successful raw height conversion. -/
theorem raw_height_try_into_some (rh : RawHeight) (h : Height)
    (hh : raw_height_try_into rh = some h) :
    h.revision_number = rh.revision_number
      ∧ h.revision_height = rh.revision_height
      ∧ rh.revision_height ≠ 0 := by
  by_cases hz : rh.revision_height = 0
  · simp [raw_height_try_into, hz] at hh
  · simp [raw_height_try_into, hz] at hh
    exact ⟨by rw [← hh], by rw [← hh], hz⟩

end IbcSpec

deriving instance DecidableEq for Except

namespace IbcSpec

/-- Looking a client up right after storing it returns the stored state. -/
theorem find_set_client (l : List (String × ClientState)) (id : String)
    (cs : ClientState) : find_client (set_client l id cs) id = some cs := by
  induction l with
  | nil => simp [set_client, find_client]
  | cons kv rest ih =>
      obtain ⟨k, v⟩ := kv
      by_cases hk : k = id
      · simp [set_client, hk, find_client]
      · simp [set_client, hk, find_client, ih]

/-- Concrete frozen client used for the update-client counterexamples. -/
def c1_frozen_state : ClientState :=
  { client_type := "9999-mock", frozen_height := some ⟨0, 40⟩,
    latest_height := ⟨0, 42⟩ }

/-- Concrete context holding the frozen client. -/
def c1_ctx : Ctx :=
  { client_states := [("07-mock-0", c1_frozen_state)],
    consensus_states := [(("07-mock-0", ⟨0, 42⟩),
      { root := 10, timestamp := 1000 })],
    events := [] }

/-- Concrete header update addressed to the frozen client. -/
def c1_msg : MsgUpdateClient :=
  { client_id := "07-mock-0",
    client_message := .header
      { height := ⟨0, 46⟩, trusted_height := ⟨0, 42⟩,
        timestamp := 1004, root := 14 },
    update_kind := .UpdateHeader, signer := "s" }

/-- C1 counterexample: the execute phase does not re-derive the
confirm-not-frozen precondition — at this concrete context the client is
stored frozen, yet execute accepts the header update, while validate
rejects it with ClientFrozen. -/
theorem execute_frozen_client_counterexample :
    client_state_of c1_ctx c1_msg.client_id = some c1_frozen_state
      ∧ c1_frozen_state.frozen_height.isSome = true
      ∧ (execute c1_ctx c1_msg).1 = .ok ()
      ∧ validate c1_ctx c1_msg = .error .client_frozen := by decide

/-- C1 (amended): execute re-derives only the client-existence
precondition; it never calls confirm_not_frozen, so a frozen client whose
message passes check_for_misbehaviour with no misbehaviour found and whose
update_state succeeds is accepted by execute, even though validate rejects
the same message with ClientFrozen. -/
theorem execute_no_frozen_recheck (ctx : Ctx) (msg : MsgUpdateClient)
    (cs : ClientState)
    (hcs : client_state_of ctx msg.client_id = some cs)
    (hfr : cs.frozen_height.isSome = true)
    (hchk : check_for_misbehaviour ctx msg.client_id cs msg.client_message
      msg.update_kind = .ok false)
    (hupd : (update_state ctx msg.client_id cs msg.client_message
      msg.update_kind).1 = .ok ()) :
    (execute ctx msg).1 = .ok ()
      ∧ validate ctx msg = .error .client_frozen := by
  constructor
  · simp only [execute, hcs, hchk]
    cases hu : update_state ctx msg.client_id cs msg.client_message
        msg.update_kind with
    | mk r ctx1 =>
        rw [hu] at hupd
        cases r with
        | error e => simp at hupd
        | ok u => simp
  · simp [validate, hcs, confirm_not_frozen, hfr]

/-- Witness for the amended C1 theorem at the concrete frozen context. -/
theorem execute_no_frozen_recheck_witness :
    (execute c1_ctx c1_msg).1 = .ok ()
      ∧ validate c1_ctx c1_msg = .error .client_frozen :=
  execute_no_frozen_recheck c1_ctx c1_msg c1_frozen_state (by decide)
    (by decide) (by decide) (by decide)

/-- Concrete active client at height (0,42) for the event scenario. -/
def c2_state : ClientState :=
  { client_type := "9999-mock", frozen_height := none,
    latest_height := ⟨0, 42⟩ }

/-- Concrete context of the event scenario. -/
def c2_ctx : Ctx :=
  { client_states := [("07-mock-0", c2_state)],
    consensus_states := [(("07-mock-0", ⟨0, 42⟩),
      { root := 42, timestamp := 1000 })],
    events := [] }

/-- Concrete fresh header at height (0,46). -/
def c2_header : Header :=
  { height := ⟨0, 46⟩, trusted_height := ⟨0, 42⟩,
    timestamp := 1010, root := 46 }

/-- Concrete update message of the event scenario. -/
def c2_msg : MsgUpdateClient :=
  { client_id := "07-mock-0", client_message := .header c2_header,
    update_kind := .UpdateHeader, signer := "s" }

/-- C2: at the spec's own scenario — client at (0,42) updated with a fresh
header at (0,46) — validate and execute succeed and the stored latest
height advances to (0,46), but the emitted UpdateClient event carries
consensus height (0,42): the handler computes the event's consensus height
from the stale client state value read before update_state ran, so the
event does not carry the header's height (0,46) the claim and the
handler's own test assert. -/
theorem execute_update_event_stale_consensus_height :
    validate c2_ctx c2_msg = .ok ()
      ∧ (execute c2_ctx c2_msg).1 = .ok ()
      ∧ client_state_of (execute c2_ctx c2_msg).2 "07-mock-0"
          = some { client_type := "9999-mock", frozen_height := none,
                   latest_height := ⟨0, 46⟩ }
      ∧ (execute c2_ctx c2_msg).2.events
          = [.Message .UpdateClient,
             .UpdateClient "07-mock-0" "9999-mock" ⟨0, 42⟩ [⟨0, 42⟩]
               (.header c2_header)] := by decide

/-- C3: when check_for_misbehaviour reports misbehaviour and the state
transition succeeds, execute succeeds, freezes the client, writes no new
consensus state, and emits exactly the Message(ClientMisbehaviour) event
followed by the ClientMisbehaviour event carrying the client id and client
type. -/
theorem execute_misbehaviour_freezes_and_events (ctx : Ctx)
    (msg : MsgUpdateClient) (cs : ClientState)
    (hcs : client_state_of ctx msg.client_id = some cs)
    (hchk : check_for_misbehaviour ctx msg.client_id cs msg.client_message
      msg.update_kind = .ok true)
    (hupd : (update_state_on_misbehaviour ctx msg.client_id cs
      msg.client_message msg.update_kind).1 = .ok ()) :
    (execute ctx msg).1 = .ok ()
      ∧ (execute ctx msg).2.events
          = ctx.events ++ [.Message .ClientMisbehaviour,
              .ClientMisbehaviour msg.client_id cs.client_type]
      ∧ (execute ctx msg).2.consensus_states = ctx.consensus_states
      ∧ client_state_of (execute ctx msg).2 msg.client_id
          = some { cs with frozen_height := some cs.latest_height } := by
  have hcs' : find_client ctx.client_states msg.client_id = some cs := hcs
  simp [execute, hcs', hchk, update_state_on_misbehaviour, emit_ibc_event,
    store_client_state, event_type, client_state_of, find_set_client]

/-- Concrete client context for the misbehaviour scenario. -/
def c3_ctx : Ctx :=
  { client_states := [("07-mock-0",
      { client_type := "9999-mock", frozen_height := none,
        latest_height := ⟨0, 42⟩ })],
    consensus_states := [(("07-mock-0", ⟨0, 42⟩),
      { root := 42, timestamp := 1000 })],
    events := [] }

/-- Concrete misbehaviour evidence: two headers at the same height with
different commitment roots. -/
def c3_msg : MsgUpdateClient :=
  { client_id := "07-mock-0",
    client_message := .misbehaviour
      { height := ⟨0, 46⟩, trusted_height := ⟨0, 42⟩,
        timestamp := 1010, root := 1 }
      { height := ⟨0, 46⟩, trusted_height := ⟨0, 42⟩,
        timestamp := 1010, root := 2 },
    update_kind := .Misbehaviour, signer := "s" }

/-- Witness for the C3 theorem at the concrete misbehaviour evidence. -/
theorem execute_misbehaviour_freezes_and_events_witness :
    (execute c3_ctx c3_msg).1 = .ok ()
      ∧ (execute c3_ctx c3_msg).2.events
          = c3_ctx.events ++ [.Message .ClientMisbehaviour,
              .ClientMisbehaviour "07-mock-0" "9999-mock"]
      ∧ (execute c3_ctx c3_msg).2.consensus_states = c3_ctx.consensus_states
      ∧ client_state_of (execute c3_ctx c3_msg).2 "07-mock-0"
          = some { client_type := "9999-mock",
                   frozen_height := some ⟨0, 42⟩,
                   latest_height := ⟨0, 42⟩ } :=
  execute_misbehaviour_freezes_and_events c3_ctx c3_msg
    { client_type := "9999-mock", frozen_height := none,
      latest_height := ⟨0, 42⟩ } (by decide) (by decide) (by decide)

/-- C4: validate fails with ClientFrozen for every message addressed to a
stored frozen client, whatever the client message, and fails with the
not-found error when no client state is stored under the message's client
id. -/
theorem update_client_validate_frozen_and_missing (ctx : Ctx)
    (msg : MsgUpdateClient) :
    (∀ cs : ClientState, client_state_of ctx msg.client_id = some cs →
        cs.frozen_height.isSome = true →
        validate ctx msg = .error .client_frozen)
      ∧ (client_state_of ctx msg.client_id = none →
        validate ctx msg = .error (.client_not_found msg.client_id)) := by
  constructor
  · intro cs hcs hfr
    simp [validate, hcs, confirm_not_frozen, hfr]
  · intro hnone
    simp [validate, hnone]

/-- Concrete frozen-client context for the C4 witness. -/
def c4_ctx : Ctx :=
  { client_states := [("07-mock-0", c1_frozen_state)],
    consensus_states := [], events := [] }

/-- Concrete malformed message: validate still answers ClientFrozen. -/
def c4_msg : MsgUpdateClient :=
  { client_id := "07-mock-0", client_message := .malformed,
    update_kind := .UpdateHeader, signer := "s" }

/-- Concrete message addressed to an absent client. -/
def c4_missing_msg : MsgUpdateClient :=
  { client_id := "nonexistingclient", client_message := .malformed,
    update_kind := .UpdateHeader, signer := "s" }

/-- Witness for the C4 theorem: the frozen branch at a malformed message
and the not-found branch at an absent client id. -/
theorem update_client_validate_frozen_and_missing_witness :
    validate c4_ctx c4_msg = .error .client_frozen
      ∧ validate c4_ctx c4_missing_msg
          = .error (.client_not_found "nonexistingclient") :=
  ⟨(update_client_validate_frozen_and_missing c4_ctx c4_msg).1
      c1_frozen_state (by decide) (by decide),
   (update_client_validate_frozen_and_missing c4_ctx c4_missing_msg).2
      (by decide)⟩

/-- C5: a failure of either check inside execute — the client-state lookup
or check_for_misbehaviour — returns that error with the context exactly as
it was: no write has been issued and no event emitted. -/
theorem execute_failed_check_no_mutation (ctx : Ctx)
    (msg : MsgUpdateClient) :
    (client_state_of ctx msg.client_id = none →
        execute ctx msg = (.error (.client_not_found msg.client_id), ctx))
      ∧ (∀ (cs : ClientState) (e : ContextError),
        client_state_of ctx msg.client_id = some cs →
        check_for_misbehaviour ctx msg.client_id cs msg.client_message
          msg.update_kind = .error e →
        execute ctx msg = (.error e, ctx)) := by
  constructor
  · intro hnone
    simp [execute, hnone]
  · intro cs e hcs hchk
    simp [execute, hcs, hchk]

/-- Concrete context for the C5 witness. -/
def c5_ctx : Ctx :=
  { client_states := [("07-mock-0", c2_state)],
    consensus_states := [], events := [] }

/-- Concrete undecodable message, on which check_for_misbehaviour fails. -/
def c5_bad_msg : MsgUpdateClient :=
  { client_id := "07-mock-0", client_message := .malformed,
    update_kind := .UpdateHeader, signer := "s" }

/-- Concrete message to an absent client. -/
def c5_missing_msg : MsgUpdateClient :=
  { client_id := "nonexistingclient", client_message := .malformed,
    update_kind := .UpdateHeader, signer := "s" }

/-- Witness for the C5 theorem: the lookup failure and the
check_for_misbehaviour failure both leave the context untouched. -/
theorem execute_failed_check_no_mutation_witness :
    execute c5_ctx c5_missing_msg
        = (.error (.client_not_found "nonexistingclient"), c5_ctx)
      ∧ execute c5_ctx c5_bad_msg
        = (.error .invalid_client_message, c5_ctx) :=
  ⟨(execute_failed_check_no_mutation c5_ctx c5_missing_msg).1 (by decide),
   (execute_failed_check_no_mutation c5_ctx c5_bad_msg).2
      c2_state .invalid_client_message (by decide) (by decide)⟩

/-- Concrete raw message with an invalid (too short) port id and no proof
height. -/
def c6_raw : RawMsgChannelCloseConfirm :=
  { port_id := "p", channel_id := "channel-0", proof_init := [1],
    proof_height := none, signer := "s" }

/-- C6 counterexample: the conversion error is not independent of the other
fields — with an invalid port id and an absent proof height, try_from
fails with the Identifier error, not MissingHeight, because the field
initializers run in source order and the port id is parsed first. -/
theorem chan_close_confirm_error_order_counterexample :
    c6_raw.proof_height = none
      ∧ msg_chan_close_confirm_try_from c6_raw = .error .Identifier
      ∧ msg_chan_close_confirm_try_from c6_raw ≠ .error .MissingHeight := by
  decide

/-- C6 (amended): whenever the earlier fields parse — a valid port id, a
valid channel id and a non-empty proof — an absent proof height, or one
present with revision height 0, makes try_from fail with MissingHeight;
when an earlier field is itself invalid the conversion still fails, but
with that field's error. -/
theorem chan_close_confirm_missing_height (raw : RawMsgChannelCloseConfirm)
    (hp : validate_identifier raw.port_id 2 128 = true)
    (hc : validate_identifier raw.channel_id 8 64 = true)
    (hpr : raw.proof_init ≠ [])
    (hh : raw.proof_height = none
      ∨ ∃ rh : RawHeight, raw.proof_height = some rh
          ∧ rh.revision_height = 0) :
    msg_chan_close_confirm_try_from raw = .error .MissingHeight := by
  have hpr' : raw.proof_init.isEmpty = false := by
    cases hpi : raw.proof_init with
    | nil => exact absurd hpi hpr
    | cons a l => simp
  rcases hh with hnone | ⟨rh, hsome, hzero⟩
  · simp [msg_chan_close_confirm_try_from, port_id_parse, hp,
      channel_id_parse, hc, proof_try_from, hpr', hnone]
  · simp [msg_chan_close_confirm_try_from, port_id_parse, hp,
      channel_id_parse, hc, proof_try_from, hpr', hsome,
      raw_height_try_into, hzero]

/-- Concrete raw message with valid fields and a zero proof height. -/
def c6_zero_raw : RawMsgChannelCloseConfirm :=
  { port_id := "transfer", channel_id := "channel-0", proof_init := [1, 2],
    proof_height := some { revision_number := 0, revision_height := 0 },
    signer := "s" }

/-- Witness for the amended C6 theorem at a concrete zero proof height. -/
theorem chan_close_confirm_missing_height_witness :
    msg_chan_close_confirm_try_from c6_zero_raw = .error .MissingHeight :=
  chan_close_confirm_missing_height c6_zero_raw (by decide) (by decide)
    (by decide)
    (.inr ⟨{ revision_number := 0, revision_height := 0 }, rfl, rfl⟩)

/-- C8: the wire round trip of MsgChannelCloseConfirm is lossless in both
directions — every well-formed domain value converts to the raw struct and
parses back to an equal value, and every raw struct that parses converts
back to the identical raw struct. -/
theorem chan_close_confirm_roundtrip :
    (∀ m : MsgChannelCloseConfirm, msg_chan_close_confirm_wf m →
        msg_chan_close_confirm_try_from (msg_chan_close_confirm_into_raw m)
          = .ok m)
      ∧ (∀ (r : RawMsgChannelCloseConfirm) (m : MsgChannelCloseConfirm),
        msg_chan_close_confirm_try_from r = .ok m →
        msg_chan_close_confirm_into_raw m = r) := by
  constructor
  · intro m hm
    obtain ⟨hp, hc, hpr, hh⟩ := hm
    have hpr' : m.proof_chan_end_on_a.isEmpty = false := by
      cases hpi : m.proof_chan_end_on_a with
      | nil => exact absurd hpi hpr
      | cons a l => simp
    have hz : m.proof_height_on_a.revision_height ≠ 0 := by omega
    simp [msg_chan_close_confirm_try_from, msg_chan_close_confirm_into_raw,
      port_id_parse, hp, channel_id_parse, hc, proof_try_from, hpr',
      raw_height_try_into, hz]
  · intro r m h
    unfold msg_chan_close_confirm_try_from at h
    rcases hp : port_id_parse r.port_id with _ | p
    · simp [hp] at h
    rcases hc : channel_id_parse r.channel_id with _ | c
    · simp [hp, hc] at h
    rcases hpr : proof_try_from r.proof_init with _ | pr
    · simp [hp, hc, hpr] at h
    rcases hb : r.proof_height.bind raw_height_try_into with _ | hgt
    · simp [hp, hc, hpr, hb] at h
    simp only [hp, hc, hpr, hb] at h
    obtain ⟨hpe, _⟩ := port_id_parse_some _ _ hp
    obtain ⟨hce, _⟩ := channel_id_parse_some _ _ hc
    obtain ⟨hpre, _⟩ := proof_try_from_some _ _ hpr
    rcases hph : r.proof_height with _ | rh
    · rw [hph] at hb
      simp at hb
    rw [hph] at hb
    simp only [Option.some_bind] at hb
    obtain ⟨hrn, hrh, _⟩ := raw_height_try_into_some _ _ hb
    have hmeq : m = MsgChannelCloseConfirm.mk p c pr hgt r.signer := by
      cases h
      rfl
    subst hmeq hpe hce hpre
    obtain ⟨rp, rc, rpi, rph, rs⟩ := r
    simp only at hph
    simp [msg_chan_close_confirm_into_raw, hph, hrn, hrh]

/-- Concrete domain message for the C8 witness. -/
def c8_domain : MsgChannelCloseConfirm :=
  { port_id_on_b := "transfer", chan_id_on_b := "channel-0",
    proof_chan_end_on_a := [1, 2, 3],
    proof_height_on_a := { revision_number := 0, revision_height := 10 },
    signer := "signer" }

/-- Concrete raw message for the C8 witness. -/
def c8_raw : RawMsgChannelCloseConfirm :=
  { port_id := "transfer", channel_id := "channel-0", proof_init := [9],
    proof_height := some { revision_number := 1, revision_height := 5 },
    signer := "alice" }

/-- The domain value c8_raw parses to. -/
def c8_parsed : MsgChannelCloseConfirm :=
  { port_id_on_b := "transfer", chan_id_on_b := "channel-0",
    proof_chan_end_on_a := [9],
    proof_height_on_a := { revision_number := 1, revision_height := 5 },
    signer := "alice" }

/-- Witness for the C8 theorem: both round-trip directions at concrete
messages. -/
theorem chan_close_confirm_roundtrip_witness :
    msg_chan_close_confirm_try_from (msg_chan_close_confirm_into_raw
        c8_domain) = .ok c8_domain
      ∧ msg_chan_close_confirm_into_raw c8_parsed = c8_raw :=
  ⟨chan_close_confirm_roundtrip.1 c8_domain (by decide),
   chan_close_confirm_roundtrip.2 c8_raw c8_parsed (by decide)⟩

/-- C7: timeout processing in the transfer application is exactly the
refund: process_timeout_packet returns the result and the updated context
of refund_packet_token, for every context, packet and packet data. -/
theorem process_timeout_packet_eq_refund (ctx : TransferCtx)
    (packet : Packet) (data : PacketData) :
    process_timeout_packet ctx packet data
      = refund_packet_token ctx packet data := rfl

/-- Appending one block extends the consecutive-heights invariant exactly
when the new block sits right after the end. -/
theorem blocks_consistent_append (rev : Nat) (l : List TBlock) (b : TBlock)
    (s : Nat) :
    blocks_consistent rev (l ++ [b]) s
      = (blocks_consistent rev l s
          && (b.height == { revision_number := rev,
                            revision_height := s + l.length })) := by
  induction l generalizing s with
  | nil => simp [blocks_consistent]
  | cons a t ih =>
      have hlen : s + (t.length + 1) = (s + 1) + t.length := by omega
      simp [blocks_consistent, ih, Bool.and_assoc, hlen]

/-- Under the consecutive-heights invariant, the block at index `i` exists
and sits at height `s + i`. -/
theorem blocks_consistent_get (rev : Nat) (l : List TBlock) (s i : Nat)
    (hc : blocks_consistent rev l s = true) (hi : i < l.length) :
    ∃ b, l.get? i = some b
      ∧ b.height = { revision_number := rev,
                     revision_height := s + i } := by
  induction l generalizing s i with
  | nil => simp at hi
  | cons a t ih =>
      simp [blocks_consistent] at hc
      obtain ⟨ha, ht⟩ := hc
      cases i with
      | zero => exact ⟨a, rfl, by simpa using ha⟩
      | succ j =>
          obtain ⟨b, hb, hh⟩ := ih (s + 1) j ht (by simpa using hi)
          refine ⟨b, by simpa using hb, ?_⟩
          rw [hh]
          have h2 : (s + 1) + j = s + (j + 1) := by omega
          rw [h2]

/-- The validate loop succeeds when every height from 1 to the latest one
resolves to a block sitting at exactly that height. -/
theorem validate_go_ok (h : THost) (rn n : Nat)
    (hb : ∀ j, 1 ≤ j → j ≤ n →
      ∃ b, h.get_block { revision_number := rn, revision_height := j }
          = some b
        ∧ b.height = { revision_number := rn, revision_height := j }) :
    ∀ rh, 1 ≤ rh → h.validate_go rn n rh = some (.ok ()) := by
  have H : ∀ k rh, 1 ≤ rh → n + 1 - rh = k →
      h.validate_go rn n rh = some (.ok ()) := by
    intro k
    induction k with
    | zero =>
        intro rh h1 hk
        rw [THost.validate_go]
        have hn : ¬ rh ≤ n := by omega
        simp [hn]
    | succ k ih =>
        intro rh h1 hk
        rw [THost.validate_go]
        by_cases hle : rh ≤ n
        · obtain ⟨b, hgb, hbh⟩ := hb rh h1 hle
          simp only [hle, dif_pos, hgb, hbh, if_pos]
          exact ih (rh + 1) (by omega) (by omega)
        · simp [hle]
  intro rh h1
  exact H (n + 1 - rh) rh h1 rfl

/-- Under the invariant, the back block sits at the history's length. -/
theorem consistent_last (h : THost) (lb : TBlock)
    (hc : THost.consistent h = true)
    (hlb : h.history.getLast? = some lb) :
    lb.height = { revision_number := h.chain_revision,
                  revision_height := h.history.length } := by
  have hne : h.history ≠ [] := by
    intro hnil
    rw [hnil] at hlb
    simp at hlb
  have hlen : 1 ≤ h.history.length := by
    cases hh : h.history with
    | nil => exact absurd hh hne
    | cons a t => simp [hh]
  have hget : h.history.get? (h.history.length - 1) = some lb := by
    rw [List.get?_eq_getElem?, ← List.getLast?_eq_getElem?]
    exact hlb
  obtain ⟨b, hb, hbh⟩ := blocks_consistent_get h.chain_revision h.history 1
      (h.history.length - 1) hc (by omega)
  have hlbb : lb = b := by
    rw [hget] at hb
    exact Option.some.inj hb
  rw [hlbb, hbh]
  have h3 : 1 + (h.history.length - 1) = h.history.length := by omega
  rw [h3]

/-- A non-empty host satisfying the consecutive-heights invariant passes
`TestHost::validate`. -/
theorem consistent_validate (h : THost) (hne : h.history ≠ [])
    (hc : THost.consistent h = true) :
    THost.validate h = some (.ok ()) := by
  have hs : (h.history.getLast?).isSome = true := List.getLast?_isSome.mpr hne
  obtain ⟨lb, hlb⟩ := Option.isSome_iff_exists.mp hs
  have hlbh := consistent_last h lb hc hlb
  unfold THost.validate THost.latest_block
  rw [hlb]
  show h.validate_go lb.height.revision_number lb.height.revision_height 1
    = some (.ok ())
  rw [hlbh]
  show h.validate_go h.chain_revision h.history.length 1 = some (.ok ())
  refine validate_go_ok _ _ _ ?_ 1 (by omega)
  intro j h1 hj
  obtain ⟨b, hbj, hbhj⟩ := blocks_consistent_get h.chain_revision h.history 1
      (j - 1) hc (by omega)
  refine ⟨b, ?_, ?_⟩
  · have hj0 : ¬ (j = 0) := by omega
    rw [List.get?_eq_getElem?] at hbj
    simp [THost.get_block, hj0]
    exact hbj
  · rw [hbhj]
    have h4 : 1 + (j - 1) = j := by omega
    rw [h4]

/-- C9: advance_block preserves the consecutive-heights-from-1 invariant
checked by TestHost::validate — on an empty history it appends the single
block at height 1 with the genesis timestamp, and otherwise it appends a
block at exactly the latest block's height incremented by one with the
latest timestamp advanced by the block time; in both cases the advanced
host still satisfies the invariant and passes validate. -/
theorem advance_block_spec (h : THost) (root : List Nat) :
    (THost.consistent h = true →
        THost.consistent (h.advance_block root) = true
          ∧ THost.validate (h.advance_block root) = some (.ok ()))
      ∧ (h.history = [] →
        (h.advance_block root).history
          = [{ height := { revision_number := h.chain_revision,
                           revision_height := 1 },
               timestamp := h.genesis_timestamp }])
      ∧ (∀ lb : TBlock, h.history.getLast? = some lb →
        (h.advance_block root).history
          = h.history
              ++ [{ height := { revision_number := h.chain_revision,
                                revision_height :=
                                  lb.height.revision_height + 1 },
                    timestamp := lb.timestamp + h.block_time }]) := by
  have hemp : h.history = [] → h.history.getLast? = none := by
    intro hnil
    rw [hnil]
    rfl
  refine ⟨?_, ?_, ?_⟩
  · intro hc
    cases hlb : h.history.getLast? with
    | none =>
        have hnil : h.history = [] := by
          by_cases hn : h.history = []
          · exact hn
          · have hx := List.getLast?_isSome.mpr hn
            rw [hlb] at hx
            simp at hx
        have hadv : (h.advance_block root).history
            = [{ height := { revision_number := h.chain_revision,
                             revision_height := 1 },
                 timestamp := h.genesis_timestamp }] := by
          simp [THost.advance_block, hlb, THost.push_block,
            THost.generate_block, hnil]
        have hcons : THost.consistent (h.advance_block root) = true := by
          have hrev : (h.advance_block root).chain_revision
              = h.chain_revision := by
            simp [THost.advance_block, hlb, THost.push_block,
              THost.generate_block]
          rw [THost.consistent, hrev, hadv]
          simp [blocks_consistent]
        refine ⟨hcons, ?_⟩
        apply consistent_validate _ _ hcons
        rw [hadv]
        simp
    | some lb =>
        have hlast := consistent_last h lb hc hlb
        have hadv : (h.advance_block root).history
            = h.history
                ++ [{ height := { revision_number := h.chain_revision,
                                  revision_height :=
                                    lb.height.revision_height + 1 },
                      timestamp := lb.timestamp + h.block_time }] := by
          simp [THost.advance_block, hlb, THost.push_block,
            THost.generate_block, Height.increment]
        have hrev : (h.advance_block root).chain_revision
            = h.chain_revision := by
          simp [THost.advance_block, hlb, THost.push_block,
            THost.generate_block]
        have hcons : THost.consistent (h.advance_block root) = true := by
          rw [THost.consistent, hrev, hadv, blocks_consistent_append]
          have hrh : lb.height.revision_height = h.history.length := by
            rw [hlast]
          rw [THost.consistent] at hc
          simp [hc, hrh]
          omega
        refine ⟨hcons, ?_⟩
        apply consistent_validate _ _ hcons
        rw [hadv]
        simp
  · intro hnil
    simp [THost.advance_block, hemp hnil, THost.push_block,
      THost.generate_block, hnil]
  · intro lb hlb
    simp [THost.advance_block, hlb, THost.push_block,
      THost.generate_block, Height.increment]

/-- Concrete consistent two-block host for the C9 witness. -/
def c9_host : THost :=
  { chain_revision := 4, block_time := 5, genesis_timestamp := 100,
    history := [{ height := { revision_number := 4, revision_height := 1 },
                  timestamp := 100 },
                { height := { revision_number := 4, revision_height := 2 },
                  timestamp := 105 }] }

/-- Concrete empty host for the C9 witness. -/
def c9_empty_host : THost :=
  { chain_revision := 7, block_time := 3, genesis_timestamp := 50,
    history := [] }

/-- Witness for the C9 theorem: the invariant is preserved at a concrete
two-block host, the empty host gets the genesis block, and the non-empty
host gets the block at the incremented height. -/
theorem advance_block_spec_witness :
    (THost.consistent (THost.advance_block c9_host []) = true
        ∧ THost.validate (THost.advance_block c9_host [])
            = some (.ok ()))
      ∧ (THost.advance_block c9_empty_host []).history
          = [{ height := { revision_number := 7, revision_height := 1 },
               timestamp := 50 }]
      ∧ (THost.advance_block c9_host []).history
          = c9_host.history
              ++ [{ height := { revision_number := 4,
                                revision_height := 3 },
                    timestamp := 110 }] :=
  ⟨(advance_block_spec c9_host []).1 (by decide),
   (advance_block_spec c9_empty_host []).2.1 rfl,
   (advance_block_spec c9_host []).2.2
      { height := { revision_number := 4, revision_height := 2 },
        timestamp := 105 } (by decide)⟩

/-- C10: latest_block and latest_height hit the panicking branch (modelled
as none) exactly on an empty history; on every host with a non-empty
history they succeed, returning the back block of the history and that
block's height. -/
theorem latest_block_back (h : THost) :
    (h.is_empty = true → h.latest_block = none ∧ h.latest_height = none)
      ∧ (h.is_empty = false →
        ∃ b : TBlock, h.history.getLast? = some b
          ∧ h.latest_block = some b
          ∧ h.latest_height = some b.height) := by
  constructor
  · intro he
    have hnil : h.history = [] := List.isEmpty_iff.mp he
    simp [THost.latest_block, THost.latest_height, hnil]
  · intro he
    have hne : h.history ≠ [] := by
      intro hnil
      rw [THost.is_empty, List.isEmpty_iff.mpr hnil] at he
      cases he
    have hs := List.getLast?_isSome.mpr hne
    obtain ⟨b, hb⟩ := Option.isSome_iff_exists.mp hs
    exact ⟨b, hb, by simp [THost.latest_block, hb],
      by simp [THost.latest_height, THost.latest_block, hb]⟩

/-- Concrete one-block host for the C10 witness. -/
def c10_host : THost :=
  { chain_revision := 0, block_time := 5, genesis_timestamp := 100,
    history := [{ height := { revision_number := 0, revision_height := 1 },
                  timestamp := 100 }] }

/-- Concrete empty host for the C10 witness. -/
def c10_empty_host : THost :=
  { chain_revision := 0, block_time := 5, genesis_timestamp := 100,
    history := [] }

/-- Witness for the C10 theorem: the empty host panics (none), the
one-block host returns its back block and height. -/
theorem latest_block_back_witness :
    (THost.latest_block c10_empty_host = none
        ∧ THost.latest_height c10_empty_host = none)
      ∧ (∃ b : TBlock, c10_host.history.getLast? = some b
          ∧ THost.latest_block c10_host = some b
          ∧ THost.latest_height c10_host = some b.height) :=
  ⟨(latest_block_back c10_empty_host).1 rfl,
   (latest_block_back c10_host).2 rfl⟩

end IbcSpec
